import Mathlib

/-!
Verification of the attestation-signing pipeline of `dirk`.

The development shallowly embeds two Go source files:

* `services/signer/standard/signbeaconattestation.go` — the
  `SignBeaconAttestation` action pipeline (input validation, credential
  resolution, rule evaluation, signing-root derivation, signing, metrics);
* `rules/service.go` — the rule-engine data records and the `Result`
  verdict constants.

Go pointers that may be `nil` (`*checker.Credentials`,
`*rules.SignBeaconAttestationData`, `*Checkpoint`) and nil-able byte
slices (`[]byte` fields) are embedded as `Option`; a non-nil empty slice
is `some []`, distinct from `none`.  Go `uint64` fields are only copied,
never computed with, so they are embedded as `Nat`.  The external
collaborators invoked by the pipeline (`preCheck`, `RunRules`,
`generateSigningRootFromData`, `signRoot`, the metrics monitor) live
outside these two files; they are parameters of the model, gathered in
an `Env` record, so every theorem quantifies over their behaviour.  The
metrics monitor returns nothing to the pipeline in Go, so it is embedded
as a state transformer `σ → MetricsEvent → σ` over an arbitrary monitor
state `σ`.
-/

/-- Go `[]byte` contents: a list of byte values. -/
abbrev Bytes := List Nat

namespace rules

/-- Go `rules.Result` from `rules/service.go`: `type Result int`. -/
abbrev Result := Int

/-- `UNKNOWN Result = iota` — the zero value. -/
def UNKNOWN : Result := 0

/-- `APPROVED` — second constant of the iota block. -/
def APPROVED : Result := 1

/-- `DENIED` — third constant of the iota block. -/
def DENIED : Result := 2

/-- `FAILED` — fourth constant of the iota block. -/
def FAILED : Result := 3

/-- Go `rules.Checkpoint`: `Epoch uint64; Root []byte` (nil-able slice). -/
structure Checkpoint where
  Epoch : Nat
  Root : Option Bytes
deriving DecidableEq, Repr

/-- Go `rules.SignBeaconAttestationData`: the attestation request record,
with nil-able `Domain`, `BeaconBlockRoot` slices and nil-able `Source`,
`Target` checkpoint pointers. -/
structure SignBeaconAttestationData where
  Domain : Option Bytes
  Slot : Nat
  CommitteeIndex : Nat
  BeaconBlockRoot : Option Bytes
  Source : Option Checkpoint
  Target : Option Checkpoint
deriving DecidableEq, Repr

/-- Modelled from the spec: the Rule Engine aggregation of provider
verdicts (`RunRules` itself is not under the excerpted sources) —
"collect each provider's Verdict; reduce by taking the maximum under the
severity order", with the no-provider default passed explicitly. -/
def aggregate (defaultVerdict : Result) (verdicts : List Result) : Result :=
  verdicts.foldl max defaultVerdict

end rules

namespace core

/-- Go `core.Result`, the pipeline outcome returned by
`SignBeaconAttestation` (the `core` package is outside the excerpted
sources; its four constants are taken from their uses in
`signbeaconattestation.go`). -/
inductive Result where
  | Unknown : Result
  | Succeeded : Result
  | Denied : Result
  | Failed : Result
deriving DecidableEq, Repr

end core

namespace checker

/-- Go `checker.Credentials` as used in `signbeaconattestation.go`:
request identifier and client identity. -/
structure Credentials where
  RequestID : String
  Client : String
deriving DecidableEq, Repr

end checker

namespace ruler

/-- Go `ruler.Action`; only `ActionSignBeaconAttestation` appears in the
embedded code. -/
inductive Action where
  | ActionSignBeaconAttestation : Action
deriving DecidableEq, Repr

end ruler

namespace standard

/-- Go `standard.Checkpoint` (local SSZ-annotated copy of the Ethereum 2
checkpoint) from `signbeaconattestation.go`. -/
structure Checkpoint where
  Epoch : Nat
  Root : Option Bytes
deriving DecidableEq, Repr

/-- Go `standard.BeaconAttestation` (local SSZ-annotated copy of the
Ethereum 2 attestation) from `signbeaconattestation.go`; `Source` and
`Target` are nil-able pointers. -/
structure BeaconAttestation where
  Slot : Nat
  CommitteeIndex : Nat
  BeaconBlockRoot : Option Bytes
  Source : Option Checkpoint
  Target : Option Checkpoint
deriving DecidableEq, Repr

/-- The wallet handle returned by `preCheck`; the pipeline only reads its
name. -/
structure Wallet where
  Name : String
deriving DecidableEq, Repr

/-- The account handle returned by `preCheck`; the pipeline reads its
name and its marshalled public key, and passes the handle to the
signer. -/
structure Account where
  Name : String
  PublicKeyMarshal : Bytes
deriving DecidableEq, Repr

/-- One record sent to the metrics monitor: the arguments of
`monitor.SignCompleted(started, "attestation", result)`. -/
structure MetricsEvent where
  started : Nat
  action : String
  result : core.Result
deriving DecidableEq, Repr

/-- The collaborators of the `standard.Service` pipeline, and the request
arrival clock.  `σ` is the metrics monitor's private state;
`signCompleted` is its state transformer (it returns nothing to the
pipeline in Go). -/
structure Env (σ : Type) where
  now : Nat
  preCheck : checker.Credentials → String → Bytes → ruler.Action →
    Wallet × Account × core.Result
  runRules : checker.Credentials → ruler.Action → String → String → Bytes →
    rules.SignBeaconAttestationData → rules.Result
  generateSigningRootFromData : BeaconAttestation → Bytes → Except Unit Bytes
  signRoot : Account → Bytes → Except Unit Bytes
  signCompleted : σ → MetricsEvent → σ

/-- The visible result of one pipeline run: the returned `core.Result`,
the returned signature (`none` embeds Go's `nil`), and the final monitor
state. -/
structure SignOutput (σ : Type) where
  result : core.Result
  signature : Option Bytes
  monitor : σ
deriving Repr

/-- Shallow embedding of `Service.SignBeaconAttestation` from
`signbeaconattestation.go`, in source order: nil-credentials check
(returns `Failed` without touching the monitor), the seven nil checks on
the request data (each returns `Denied` after one `SignCompleted` call),
`preCheck` short-circuit, the `RunRules` switch (only `DENIED` and
`FAILED` have cases; anything else falls through), construction of the
local `BeaconAttestation` copy, signing-root derivation and signing
(errors return `Failed`), and the success return. -/
def SignBeaconAttestation {σ : Type} (env : Env σ) (mon : σ)
    (credentials : Option checker.Credentials) (accountName : String)
    (pubKey : Bytes) (data : Option rules.SignBeaconAttestationData) :
    SignOutput σ :=
  let started := env.now
  match credentials with
  | none => ⟨core.Result.Failed, none, mon⟩
  | some creds =>
    match data with
    | none =>
      ⟨core.Result.Denied, none,
        env.signCompleted mon ⟨started, "attestation", core.Result.Denied⟩⟩
    | some d =>
      match d.BeaconBlockRoot with
      | none =>
        ⟨core.Result.Denied, none,
          env.signCompleted mon ⟨started, "attestation", core.Result.Denied⟩⟩
      | some _ =>
      match d.Domain with
      | none =>
        ⟨core.Result.Denied, none,
          env.signCompleted mon ⟨started, "attestation", core.Result.Denied⟩⟩
      | some domain =>
      match d.Source with
      | none =>
        ⟨core.Result.Denied, none,
          env.signCompleted mon ⟨started, "attestation", core.Result.Denied⟩⟩
      | some src =>
      match src.Root with
      | none =>
        ⟨core.Result.Denied, none,
          env.signCompleted mon ⟨started, "attestation", core.Result.Denied⟩⟩
      | some _ =>
      match d.Target with
      | none =>
        ⟨core.Result.Denied, none,
          env.signCompleted mon ⟨started, "attestation", core.Result.Denied⟩⟩
      | some tgt =>
      match tgt.Root with
      | none =>
        ⟨core.Result.Denied, none,
          env.signCompleted mon ⟨started, "attestation", core.Result.Denied⟩⟩
      | some _ =>
      match env.preCheck creds accountName pubKey
          ruler.Action.ActionSignBeaconAttestation with
      | (wallet, account, checkRes) =>
        if checkRes ≠ core.Result.Succeeded then
          ⟨checkRes, none,
            env.signCompleted mon ⟨started, "attestation", checkRes⟩⟩
        else
          let result := env.runRules creds
            ruler.Action.ActionSignBeaconAttestation wallet.Name account.Name
            account.PublicKeyMarshal d
          if result = rules.DENIED then
            ⟨core.Result.Denied, none,
              env.signCompleted mon ⟨started, "attestation", core.Result.Denied⟩⟩
          else if result = rules.FAILED then
            ⟨core.Result.Failed, none,
              env.signCompleted mon ⟨started, "attestation", core.Result.Failed⟩⟩
          else
            let attestation : BeaconAttestation :=
              { Slot := d.Slot
                CommitteeIndex := d.CommitteeIndex
                BeaconBlockRoot := d.BeaconBlockRoot
                Source := some { Epoch := src.Epoch, Root := src.Root }
                Target := some { Epoch := tgt.Epoch, Root := tgt.Root } }
            match env.generateSigningRootFromData attestation domain with
            | Except.error _ =>
              ⟨core.Result.Failed, none,
                env.signCompleted mon ⟨started, "attestation", core.Result.Failed⟩⟩
            | Except.ok signingRoot =>
              match env.signRoot account signingRoot with
              | Except.error _ =>
                ⟨core.Result.Failed, none,
                  env.signCompleted mon ⟨started, "attestation", core.Result.Failed⟩⟩
              | Except.ok signature =>
                ⟨core.Result.Succeeded, some signature,
                  env.signCompleted mon ⟨started, "attestation", core.Result.Succeeded⟩⟩

/-- The incompleteness test that the pipeline's input-validation block
performs: the request data record is absent, or one of the six nil
checks (`BeaconBlockRoot`, `Domain`, `Source`, `Source.Root`, `Target`,
`Target.Root`) fires. -/
def attestationDataIncomplete (data : Option rules.SignBeaconAttestationData) :
    Bool :=
  match data with
  | none => true
  | some d =>
    d.BeaconBlockRoot.isNone || d.Domain.isNone ||
    (match d.Source with
     | none => true
     | some src => src.Root.isNone) ||
    (match d.Target with
     | none => true
     | some tgt => tgt.Root.isNone)

/-- A concrete credential resolver for concrete runs: always resolves to
one wallet/account pair with outcome `Succeeded`. -/
def samplePreCheck :
    checker.Credentials → String → Bytes → ruler.Action →
      Wallet × Account × core.Result :=
  fun _ _ _ _ => (⟨"wallet"⟩, ⟨"account", [6]⟩, core.Result.Succeeded)

/-- A concrete ruler for concrete runs: always returns `APPROVED`. -/
def sampleRunRules :
    checker.Credentials → ruler.Action → String → String → Bytes →
      rules.SignBeaconAttestationData → rules.Result :=
  fun _ _ _ _ _ _ => rules.APPROVED

/-- A concrete signing-root deriver for concrete runs. -/
def sampleGenRoot : BeaconAttestation → Bytes → Except Unit Bytes :=
  fun _ _ => Except.ok [9]

/-- A concrete signer for concrete runs: returns a fixed non-empty
signature. -/
def sampleSignRoot : Account → Bytes → Except Unit Bytes :=
  fun _ _ => Except.ok [7, 7]

/-- A concrete environment whose monitor records every `SignCompleted`
call in a list, so metrics calls can be counted. -/
def traceEnv : Env (List MetricsEvent) :=
  ⟨5, samplePreCheck, sampleRunRules, sampleGenRoot, sampleSignRoot,
    fun l e => l ++ [e]⟩

/-- The same collaborators as `traceEnv` but with a monitor that keeps no
state at all. -/
def unitMonEnv : Env Unit :=
  ⟨5, samplePreCheck, sampleRunRules, sampleGenRoot, sampleSignRoot,
    fun _ _ => ()⟩

/-- Concrete credentials for concrete runs. -/
def sampleCreds : checker.Credentials := ⟨"req-1", "client-1"⟩

/-- A fully-populated concrete attestation request. -/
def sampleData : rules.SignBeaconAttestationData :=
  { Domain := some [1]
    Slot := 100
    CommitteeIndex := 0
    BeaconBlockRoot := some [2]
    Source := some ⟨10, some [3]⟩
    Target := some ⟨11, some [4]⟩ }

end standard

/-- The verdict-aggregation default is never exceeded downward: the
maximum-reduction keeps the default as a lower bound. -/
lemma aggregate_ge_default (d : rules.Result) (l : List rules.Result) :
    d ≤ rules.aggregate d l := by
  induction l generalizing d with
  | nil => exact le_refl d
  | cons x xs ih =>
    exact le_trans (le_max_left d x) (ih (max d x))

/-- Every verdict in the list is a lower bound of the maximum-reduction:
no verdict more severe than the aggregate is ever dropped. -/
lemma mem_le_aggregate (d : rules.Result) (l : List rules.Result)
    (v : rules.Result) (h : v ∈ l) : v ≤ rules.aggregate d l := by
  induction l generalizing d with
  | nil => cases h
  | cons x xs ih =>
    rcases List.mem_cons.mp h with hvx | hmem
    · subst hvx
      exact le_trans (le_max_right d v) (aggregate_ge_default (max d v) xs)
    · exact ih (max d x) hmem

/-- Claim C9: the `rules.Result` constants are the integers
`UNKNOWN = 0`, `APPROVED = 1`, `DENIED = 2`, `FAILED = 3`, realizing the
severity order `APPROVED < DENIED < FAILED` with the zero (default)
value `UNKNOWN` strictly below `APPROVED`; reduction of any list of
verdicts by maximum is fail-closed: the aggregate is at least the
default and at least every verdict in the list. -/
theorem C9_result_constants_severity_order :
    rules.UNKNOWN = 0 ∧ rules.APPROVED = 1 ∧ rules.DENIED = 2 ∧
    rules.FAILED = 3 ∧
    rules.UNKNOWN < rules.APPROVED ∧ rules.APPROVED < rules.DENIED ∧
    rules.DENIED < rules.FAILED ∧
    (∀ (d : rules.Result) (l : List rules.Result),
      d ≤ rules.aggregate d l) ∧
    (∀ (d : rules.Result) (l : List rules.Result) (v : rules.Result),
      v ∈ l → v ≤ rules.aggregate d l) :=
  ⟨rfl, rfl, rfl, rfl, by decide, by decide, by decide,
    aggregate_ge_default, mem_le_aggregate⟩

/-- Witness for C9 at a concrete verdict list: a `DENIED` vote is not
dropped by maximum-reduction over `[APPROVED, DENIED]`. -/
theorem C9_witness :
    rules.DENIED ≤
      rules.aggregate rules.APPROVED [rules.APPROVED, rules.DENIED] :=
  C9_result_constants_severity_order.2.2.2.2.2.2.2.2
    rules.APPROVED [rules.APPROVED, rules.DENIED] rules.DENIED (by decide)

/-- Claim C1 fails on the code: the `switch` on the `RunRules` verdict in
`signbeaconattestation.go` has cases only for `DENIED` and `FAILED`, so
an `UNKNOWN` verdict falls through and proceeds to signing-root
derivation and signing.  With complete data, a succeeding resolver,
deriver and signer, and a ruler returning `UNKNOWN`, the pipeline
returns `SUCCEEDED` with a signature instead of the `FAILED` the claim
requires. -/
theorem C1_unknown_verdict_proceeds_to_signing :
    standard.SignBeaconAttestation
        { standard.traceEnv with
            runRules := fun _ _ _ _ _ _ => rules.UNKNOWN }
        [] (some standard.sampleCreds) "account" [6] (some standard.sampleData)
      = ⟨core.Result.Succeeded, some [7, 7],
          [⟨5, "attestation", core.Result.Succeeded⟩]⟩ := by
  rfl

/-- Claim C2: with non-nil credentials, an absent data record or any
absent field among beacon-block root, domain, source, source root,
target, target root makes the pipeline return `DENIED` with no
signature — for every choice of ruler, so `RunRules` is never consulted
on such a request. -/
theorem C2_incomplete_data_denied_before_rules {σ : Type} (env : standard.Env σ)
    (rr : checker.Credentials → ruler.Action → String → String → Bytes →
      rules.SignBeaconAttestationData → rules.Result)
    (mon : σ) (creds : checker.Credentials) (accountName : String)
    (pubKey : Bytes) (data : Option rules.SignBeaconAttestationData)
    (h : standard.attestationDataIncomplete data = true) :
    standard.SignBeaconAttestation { env with runRules := rr } mon
        (some creds) accountName pubKey data
      = ⟨core.Result.Denied, none,
          env.signCompleted mon ⟨env.now, "attestation", core.Result.Denied⟩⟩ := by
  cases data with
  | none => rfl
  | some d =>
    obtain ⟨dom, slot, ci, bbr, srcO, tgtO⟩ := d
    simp only [standard.attestationDataIncomplete] at h
    cases bbr <;> cases dom <;>
      rcases srcO with _ | ⟨se, _ | sr⟩ <;>
      rcases tgtO with _ | ⟨te, _ | tr⟩ <;>
      first
        | rfl
        | simp_all

/-- Witness for C2 at a concrete request whose target root is absent. -/
theorem C2_witness :
    standard.SignBeaconAttestation standard.traceEnv []
        (some standard.sampleCreds) "account" [6]
        (some { standard.sampleData with Target := some ⟨11, none⟩ })
      = ⟨core.Result.Denied, none,
          [⟨5, "attestation", core.Result.Denied⟩]⟩ :=
  C2_incomplete_data_denied_before_rules standard.traceEnv
    standard.sampleRunRules [] standard.sampleCreds "account" [6]
    (some { standard.sampleData with Target := some ⟨11, none⟩ }) (by decide)

/-- Claim C6: when `preCheck` resolves the credentials to any result
other than `Succeeded`, the pipeline returns exactly that result with no
signature — for every choice of ruler, signing-root deriver and signer,
so none of them is consulted on such a request. -/
theorem C6_precheck_short_circuits {σ : Type} (env : standard.Env σ)
    (rr : checker.Credentials → ruler.Action → String → String → Bytes →
      rules.SignBeaconAttestationData → rules.Result)
    (gen : standard.BeaconAttestation → Bytes → Except Unit Bytes)
    (sgn : standard.Account → Bytes → Except Unit Bytes)
    (mon : σ) (creds : checker.Credentials) (accountName : String)
    (pubKey : Bytes) (dom bbr srcRoot tgtRoot : Bytes) (slot ci se te : Nat)
    (w : standard.Wallet) (a : standard.Account) (res : core.Result)
    (hpc : env.preCheck creds accountName pubKey
        ruler.Action.ActionSignBeaconAttestation = (w, a, res))
    (hres : res ≠ core.Result.Succeeded) :
    standard.SignBeaconAttestation
        { env with
            runRules := rr
            generateSigningRootFromData := gen
            signRoot := sgn }
        mon (some creds) accountName pubKey
        (some ⟨some dom, slot, ci, some bbr, some ⟨se, some srcRoot⟩,
          some ⟨te, some tgtRoot⟩⟩)
      = ⟨res, none,
          env.signCompleted mon ⟨env.now, "attestation", res⟩⟩ := by
  simp only [standard.SignBeaconAttestation, hpc]
  simp [hres]

/-- Claim C7: on a rules-approved request, an error from signing-root
derivation, or a successful derivation followed by an error from the
signer, makes the pipeline return `FAILED` with no signature. -/
theorem C7_derivation_or_signer_error_fails {σ : Type} (env : standard.Env σ)
    (mon : σ) (creds : checker.Credentials) (accountName : String)
    (pubKey : Bytes) (dom bbr srcRoot tgtRoot : Bytes) (slot ci se te : Nat)
    (w : standard.Wallet) (a : standard.Account)
    (hpc : env.preCheck creds accountName pubKey
        ruler.Action.ActionSignBeaconAttestation
      = (w, a, core.Result.Succeeded))
    (hrr : env.runRules creds ruler.Action.ActionSignBeaconAttestation
        w.Name a.Name a.PublicKeyMarshal
        ⟨some dom, slot, ci, some bbr, some ⟨se, some srcRoot⟩,
          some ⟨te, some tgtRoot⟩⟩
      = rules.APPROVED)
    (hfail :
      env.generateSigningRootFromData
          ⟨slot, ci, some bbr, some ⟨se, some srcRoot⟩,
            some ⟨te, some tgtRoot⟩⟩ dom
        = Except.error ()
      ∨ ∃ root,
          env.generateSigningRootFromData
              ⟨slot, ci, some bbr, some ⟨se, some srcRoot⟩,
                some ⟨te, some tgtRoot⟩⟩ dom
            = Except.ok root
          ∧ env.signRoot a root = Except.error ()) :
    standard.SignBeaconAttestation env mon (some creds) accountName pubKey
        (some ⟨some dom, slot, ci, some bbr, some ⟨se, some srcRoot⟩,
          some ⟨te, some tgtRoot⟩⟩)
      = ⟨core.Result.Failed, none,
          env.signCompleted mon
            ⟨env.now, "attestation", core.Result.Failed⟩⟩ := by
  rcases hfail with hgen | ⟨root, hgen, hsgn⟩ <;>
    simp [standard.SignBeaconAttestation, hpc, hrr, hgen, rules.APPROVED,
      rules.DENIED, rules.FAILED]
  simp [hsgn]

/-- Claim C10: once validation, resolution and rules have passed, the
pipeline's behaviour is exactly that of deriving a signing root from a
`BeaconAttestation` whose `Slot`, `CommitteeIndex`, `BeaconBlockRoot`,
`Source.Epoch`, `Source.Root`, `Target.Epoch` and `Target.Root` are the
corresponding request fields, with the request's `Domain` as the
derivation domain, followed by signing that root. -/
theorem C10_attestation_copied_field_for_field {σ : Type}
    (env : standard.Env σ)
    (mon : σ) (creds : checker.Credentials) (accountName : String)
    (pubKey : Bytes) (dom bbr srcRoot tgtRoot : Bytes) (slot ci se te : Nat)
    (w : standard.Wallet) (a : standard.Account)
    (hpc : env.preCheck creds accountName pubKey
        ruler.Action.ActionSignBeaconAttestation
      = (w, a, core.Result.Succeeded))
    (hrr : env.runRules creds ruler.Action.ActionSignBeaconAttestation
        w.Name a.Name a.PublicKeyMarshal
        ⟨some dom, slot, ci, some bbr, some ⟨se, some srcRoot⟩,
          some ⟨te, some tgtRoot⟩⟩
      = rules.APPROVED) :
    standard.SignBeaconAttestation env mon (some creds) accountName pubKey
        (some ⟨some dom, slot, ci, some bbr, some ⟨se, some srcRoot⟩,
          some ⟨te, some tgtRoot⟩⟩)
      = match env.generateSigningRootFromData
            ⟨slot, ci, some bbr, some ⟨se, some srcRoot⟩,
              some ⟨te, some tgtRoot⟩⟩ dom with
        | Except.error _ =>
          ⟨core.Result.Failed, none,
            env.signCompleted mon
              ⟨env.now, "attestation", core.Result.Failed⟩⟩
        | Except.ok signingRoot =>
          match env.signRoot a signingRoot with
          | Except.error _ =>
            ⟨core.Result.Failed, none,
              env.signCompleted mon
                ⟨env.now, "attestation", core.Result.Failed⟩⟩
          | Except.ok signature =>
            ⟨core.Result.Succeeded, some signature,
              env.signCompleted mon
                ⟨env.now, "attestation", core.Result.Succeeded⟩⟩ := by
  simp [standard.SignBeaconAttestation, hpc, hrr, rules.APPROVED,
    rules.DENIED, rules.FAILED]

/-- Every run of the pipeline exits in one of two shapes: a
non-`Succeeded` result with no signature, or a `Succeeded` result whose
signature is exactly a successful output of the external signer. -/
lemma signBeaconAttestation_exit_cases {σ : Type} (env : standard.Env σ)
    (mon : σ) (credentials : Option checker.Credentials)
    (accountName : String) (pubKey : Bytes)
    (data : Option rules.SignBeaconAttestationData) :
    (∃ (res : core.Result) (m : σ),
        standard.SignBeaconAttestation env mon credentials accountName pubKey
            data = ⟨res, none, m⟩ ∧
        res ≠ core.Result.Succeeded) ∨
    (∃ (a : standard.Account) (root s : Bytes) (m : σ),
        env.signRoot a root = Except.ok s ∧
        standard.SignBeaconAttestation env mon credentials accountName pubKey
            data = ⟨core.Result.Succeeded, some s, m⟩) := by
  simp only [standard.SignBeaconAttestation]
  repeat' split
  all_goals
    first
      | exact Or.inl ⟨_, _, rfl, by decide⟩
      | exact Or.inl ⟨_, _, rfl, by assumption⟩
      | (rename_i heq; exact Or.inr ⟨_, _, _, _, heq, rfl⟩)

/-- Claim C3: at every exit point of the pipeline, a `Succeeded` outcome
carries a non-empty signature (given that the external signer only ever
produces non-empty signatures), and a `Denied` or `Failed` outcome
carries no signature. -/
theorem C3_outcome_signature_pairing {σ : Type} (env : standard.Env σ)
    (mon : σ) (credentials : Option checker.Credentials)
    (accountName : String) (pubKey : Bytes)
    (data : Option rules.SignBeaconAttestationData)
    (hsig : ∀ (a : standard.Account) (root s : Bytes),
      env.signRoot a root = Except.ok s → s ≠ []) :
    ((standard.SignBeaconAttestation env mon credentials accountName pubKey
          data).result = core.Result.Succeeded →
      ∃ s, (standard.SignBeaconAttestation env mon credentials accountName
          pubKey data).signature = some s ∧ s ≠ []) ∧
    (((standard.SignBeaconAttestation env mon credentials accountName pubKey
          data).result = core.Result.Denied ∨
      (standard.SignBeaconAttestation env mon credentials accountName pubKey
          data).result = core.Result.Failed) →
      (standard.SignBeaconAttestation env mon credentials accountName pubKey
          data).signature = none) := by
  rcases signBeaconAttestation_exit_cases env mon credentials accountName
      pubKey data with
    ⟨res, m, hout, hres⟩ | ⟨a, root, s, m, hok, hout⟩
  · refine ⟨fun h => ?_, fun _ => ?_⟩
    · rw [hout] at h
      exact absurd h hres
    · rw [hout]
  · refine ⟨fun _ => ?_, fun h => ?_⟩
    · rw [hout]
      exact ⟨s, rfl, hsig a root s hok⟩
    · rw [hout] at h
      rcases h with h | h <;> cases h

/-- With the list-recording monitor and non-nil credentials, every run of
the pipeline appends exactly one metrics event, carrying the start time,
the action name `"attestation"`, and the result the run returns. -/
lemma signBeaconAttestation_trace (env : standard.Env (List standard.MetricsEvent))
    (hm : env.signCompleted = fun l e => l ++ [e])
    (creds : checker.Credentials) (accountName : String) (pubKey : Bytes)
    (data : Option rules.SignBeaconAttestationData) :
    ∃ (res : core.Result) (sig : Option Bytes),
      standard.SignBeaconAttestation env [] (some creds) accountName pubKey
          data
        = ⟨res, sig, [⟨env.now, "attestation", res⟩]⟩ := by
  simp only [standard.SignBeaconAttestation, hm, List.nil_append]
  repeat' split
  all_goals exact ⟨_, _, rfl⟩

/-- Claim C4: a run with nil credentials returns `FAILED` with no
signature and records no metrics event, and this is the only
metrics-skipping terminal path: with the recording monitor, every run
with non-nil credentials records exactly one event. -/
theorem C4_nil_credentials_hard_fail_no_metrics
    (env : standard.Env (List standard.MetricsEvent))
    (hm : env.signCompleted = fun l e => l ++ [e])
    (accountName : String) (pubKey : Bytes)
    (data : Option rules.SignBeaconAttestationData) :
    standard.SignBeaconAttestation env [] none accountName pubKey data
      = ⟨core.Result.Failed, none, []⟩ ∧
    ∀ creds : checker.Credentials,
      (standard.SignBeaconAttestation env [] (some creds) accountName pubKey
          data).monitor.length = 1 := by
  refine ⟨rfl, fun creds => ?_⟩
  obtain ⟨res, sig, hout⟩ :=
    signBeaconAttestation_trace env hm creds accountName pubKey data
  rw [hout]
  rfl

/-- Claim C5: with the recording monitor, every run with non-nil
credentials emits exactly one `SignCompleted` record, carrying the start
time, the action name `"attestation"`, and a classification equal to the
outcome the run returns. -/
theorem C5_metrics_one_record_matching_outcome
    (env : standard.Env (List standard.MetricsEvent))
    (hm : env.signCompleted = fun l e => l ++ [e])
    (creds : checker.Credentials) (accountName : String) (pubKey : Bytes)
    (data : Option rules.SignBeaconAttestationData) :
    (standard.SignBeaconAttestation env [] (some creds) accountName pubKey
        data).monitor
      = [⟨env.now, "attestation",
          (standard.SignBeaconAttestation env [] (some creds) accountName
              pubKey data).result⟩] := by
  obtain ⟨res, sig, hout⟩ :=
    signBeaconAttestation_trace env hm creds accountName pubKey data
  rw [hout]

/-- Claim C8: the returned outcome and signature do not depend on the
metrics monitor: two runs on identical inputs whose environments agree
on the resolver, the ruler, the signing-root deriver and the signer —
but carry arbitrary, possibly different monitor implementations and
states — return the same result and the same signature. -/
theorem C8_outcome_independent_of_monitor {σ₁ σ₂ : Type}
    (env₁ : standard.Env σ₁) (env₂ : standard.Env σ₂)
    (m₁ : σ₁) (m₂ : σ₂) (credentials : Option checker.Credentials)
    (accountName : String) (pubKey : Bytes)
    (data : Option rules.SignBeaconAttestationData)
    (hpc : env₁.preCheck = env₂.preCheck)
    (hrr : env₁.runRules = env₂.runRules)
    (hgen : env₁.generateSigningRootFromData = env₂.generateSigningRootFromData)
    (hsgn : env₁.signRoot = env₂.signRoot) :
    (standard.SignBeaconAttestation env₁ m₁ credentials accountName pubKey
        data).result
      = (standard.SignBeaconAttestation env₂ m₂ credentials accountName pubKey
        data).result ∧
    (standard.SignBeaconAttestation env₁ m₁ credentials accountName pubKey
        data).signature
      = (standard.SignBeaconAttestation env₂ m₂ credentials accountName pubKey
        data).signature := by
  obtain ⟨n₁, pc₁, rr₁, g₁, s₁, sc₁⟩ := env₁
  obtain ⟨n₂, pc₂, rr₂, g₂, s₂, sc₂⟩ := env₂
  dsimp only at hpc hrr hgen hsgn
  subst hpc
  subst hrr
  subst hgen
  subst hsgn
  cases credentials with
  | none => exact ⟨rfl, rfl⟩
  | some creds =>
  cases data with
  | none => exact ⟨rfl, rfl⟩
  | some d =>
  obtain ⟨dom, slot, ci, bbr, srcO, tgtO⟩ := d
  cases bbr with
  | none => exact ⟨rfl, rfl⟩
  | some bbr =>
  cases dom with
  | none => exact ⟨rfl, rfl⟩
  | some dom =>
  rcases srcO with _ | ⟨se, sr⟩
  · exact ⟨rfl, rfl⟩
  rcases sr with _ | sr
  · exact ⟨rfl, rfl⟩
  rcases tgtO with _ | ⟨te, tr⟩
  · exact ⟨rfl, rfl⟩
  rcases tr with _ | tr
  · exact ⟨rfl, rfl⟩
  rcases hq : pc₁ creds accountName pubKey
      ruler.Action.ActionSignBeaconAttestation with ⟨w, a, res⟩
  simp only [standard.SignBeaconAttestation, hq]
  rcases res with _ | _ | _ | _
  · simp
  case Succeeded =>
    simp only [ne_eq, not_true_eq_false, if_false, reduceIte]
    by_cases hd : rr₁ creds ruler.Action.ActionSignBeaconAttestation w.Name
        a.Name a.PublicKeyMarshal
        ⟨some dom, slot, ci, some bbr, some ⟨se, some sr⟩, some ⟨te, some tr⟩⟩
      = rules.DENIED
    · simp [hd]
    · by_cases hf : rr₁ creds ruler.Action.ActionSignBeaconAttestation w.Name
          a.Name a.PublicKeyMarshal
          ⟨some dom, slot, ci, some bbr, some ⟨se, some sr⟩,
            some ⟨te, some tr⟩⟩
        = rules.FAILED
      · simp [hd, hf, rules.FAILED, rules.DENIED]
      · simp only [hd, hf, if_false, reduceIte]
        rcases hg : g₁ ⟨slot, ci, some bbr, some ⟨se, some sr⟩,
            some ⟨te, some tr⟩⟩ dom with e | root
        · simp [hg]
        · simp only [hg]
          rcases hs : s₁ a root with e | sig <;> simp [hs]
  · simp
  · simp

/-- Witness for C3 at a concrete environment whose signer returns the
non-empty signature `[7, 7]`. -/
theorem C3_witness :
    ((standard.SignBeaconAttestation standard.traceEnv []
          (some standard.sampleCreds) "account" [6]
          (some standard.sampleData)).result = core.Result.Succeeded →
      ∃ s, (standard.SignBeaconAttestation standard.traceEnv []
          (some standard.sampleCreds) "account" [6]
          (some standard.sampleData)).signature = some s ∧ s ≠ []) ∧
    (((standard.SignBeaconAttestation standard.traceEnv []
          (some standard.sampleCreds) "account" [6]
          (some standard.sampleData)).result = core.Result.Denied ∨
      (standard.SignBeaconAttestation standard.traceEnv []
          (some standard.sampleCreds) "account" [6]
          (some standard.sampleData)).result = core.Result.Failed) →
      (standard.SignBeaconAttestation standard.traceEnv []
          (some standard.sampleCreds) "account" [6]
          (some standard.sampleData)).signature = none) :=
  C3_outcome_signature_pairing standard.traceEnv []
    (some standard.sampleCreds) "account" [6] (some standard.sampleData)
    (by
      intro a root s h
      injection h with h
      subst h
      decide)

/-- Witness for C4 at the recording monitor: nil credentials give
`FAILED` with no signature and an empty metrics trace, while the same
request with credentials records exactly one event. -/
theorem C4_witness :
    standard.SignBeaconAttestation standard.traceEnv [] none "account" [6]
        (some standard.sampleData) = ⟨core.Result.Failed, none, []⟩ ∧
    (standard.SignBeaconAttestation standard.traceEnv []
        (some standard.sampleCreds) "account" [6]
        (some standard.sampleData)).monitor.length = 1 :=
  ⟨(C4_nil_credentials_hard_fail_no_metrics standard.traceEnv rfl "account"
      [6] (some standard.sampleData)).1,
    (C4_nil_credentials_hard_fail_no_metrics standard.traceEnv rfl "account"
      [6] (some standard.sampleData)).2 standard.sampleCreds⟩

/-- Witness for C5 at the recording monitor and a concrete request. -/
theorem C5_witness :
    (standard.SignBeaconAttestation standard.traceEnv []
        (some standard.sampleCreds) "account" [6]
        (some standard.sampleData)).monitor
      = [⟨5, "attestation",
          (standard.SignBeaconAttestation standard.traceEnv []
              (some standard.sampleCreds) "account" [6]
              (some standard.sampleData)).result⟩] :=
  C5_metrics_one_record_matching_outcome standard.traceEnv rfl
    standard.sampleCreds "account" [6] (some standard.sampleData)

/-- Witness for C6 at a resolver that answers `Denied`: the pipeline
returns `Denied` with no signature and one matching metrics event. -/
theorem C6_witness :
    standard.SignBeaconAttestation
        ⟨5, fun _ _ _ _ => (⟨"wallet"⟩, ⟨"account", [6]⟩, core.Result.Denied),
          standard.sampleRunRules, standard.sampleGenRoot,
          standard.sampleSignRoot, fun l e => l ++ [e]⟩
        [] (some standard.sampleCreds) "account" [6]
        (some standard.sampleData)
      = ⟨core.Result.Denied, none,
          [⟨5, "attestation", core.Result.Denied⟩]⟩ :=
  C6_precheck_short_circuits
    { standard.traceEnv with
        preCheck := fun _ _ _ _ =>
          (⟨"wallet"⟩, ⟨"account", [6]⟩, core.Result.Denied) }
    standard.sampleRunRules standard.sampleGenRoot standard.sampleSignRoot
    [] standard.sampleCreds "account" [6] [1] [2] [3] [4] 100 0 10 11
    ⟨"wallet"⟩ ⟨"account", [6]⟩ core.Result.Denied rfl (by decide)

/-- Witness for C7 at a signing-root deriver that fails: the pipeline
returns `FAILED` with no signature and one matching metrics event. -/
theorem C7_witness :
    standard.SignBeaconAttestation
        ⟨5, standard.samplePreCheck, standard.sampleRunRules,
          fun _ _ => Except.error (), standard.sampleSignRoot,
          fun l e => l ++ [e]⟩
        [] (some standard.sampleCreds) "account" [6]
        (some standard.sampleData)
      = ⟨core.Result.Failed, none,
          [⟨5, "attestation", core.Result.Failed⟩]⟩ :=
  C7_derivation_or_signer_error_fails
    ⟨5, standard.samplePreCheck, standard.sampleRunRules,
      fun _ _ => Except.error (), standard.sampleSignRoot,
      fun l e => l ++ [e]⟩
    [] standard.sampleCreds "account" [6] [1] [2] [3] [4] 100 0 10 11
    ⟨"wallet"⟩ ⟨"account", [6]⟩ rfl rfl (Or.inl rfl)

/-- Witness for C8 at two concrete environments differing only in their
monitors: a list-recording monitor and a stateless one. -/
theorem C8_witness :
    (standard.SignBeaconAttestation standard.traceEnv []
        (some standard.sampleCreds) "account" [6]
        (some standard.sampleData)).result
      = (standard.SignBeaconAttestation standard.unitMonEnv ()
        (some standard.sampleCreds) "account" [6]
        (some standard.sampleData)).result ∧
    (standard.SignBeaconAttestation standard.traceEnv []
        (some standard.sampleCreds) "account" [6]
        (some standard.sampleData)).signature
      = (standard.SignBeaconAttestation standard.unitMonEnv ()
        (some standard.sampleCreds) "account" [6]
        (some standard.sampleData)).signature :=
  C8_outcome_independent_of_monitor standard.traceEnv standard.unitMonEnv
    [] () (some standard.sampleCreds) "account" [6]
    (some standard.sampleData) rfl rfl rfl rfl

/-- Witness for C10 at a concrete approved request: the pipeline's output
is exactly the derive-then-sign continuation, which evaluates to a
successful signature here. -/
theorem C10_witness :
    standard.SignBeaconAttestation standard.traceEnv []
        (some standard.sampleCreds) "account" [6]
        (some standard.sampleData)
      = ⟨core.Result.Succeeded, some [7, 7],
          [⟨5, "attestation", core.Result.Succeeded⟩]⟩ :=
  C10_attestation_copied_field_for_field standard.traceEnv []
    standard.sampleCreds "account" [6] [1] [2] [3] [4] 100 0 10 11
    ⟨"wallet"⟩ ⟨"account", [6]⟩ rfl rfl
